import Mathlib

/-!
Verification of the `procedure` module (procedure.hpp): a type-erased stored
procedure call system.  The module wraps free functions, callable objects
(including closures) and object/member-function pairs behind one abstract
call interface (`Procedural`), with an optional equality capability
(`ComparablyProcedural`) whose strategy depends on whether run-time type
information (RTTI) is available.

Shallow embedding conventions:
  - C++ object addresses are modelled as `Nat`; two distinct live objects
    have distinct addresses, and a reference to an object is its address
    together with its static type.
  - Static template arguments (`Typical`, `MethodLocational`) are modelled
    as type tags; the function type of the fixed signature is one tag
    (`TypeTag.funType`) and each class/closure type gets a `classType` id.
    Member-pointer types are modelled as `Nat` ids.
  - A member-function pointer value (`MethodLocational` value) is an
    `Option Nat`: `none` is the null pointer, `some sel` a pointer to an
    actual member function.
  - The three build-configuration macros (PROCEDURE_MODULE_NOTHROW,
    PROCEDURE_MODULE_NORTTI, PROCEDURE_MODULE_NOSTDCPP) are modelled as an
    explicit `Config` record of flags (`true` means the macro is defined).
  - Invocation semantics are relative to a `CallEnv`, which gives the
    behaviour of every callable entity (by static type tag and address) and
    of every member function (by receiver address and pointer value).  A
    callable may raise an error, modelled by `Except`.
-/

namespace procedure

/-- Tag identifying the static type `Typical` a wrapper was instantiated
with.  For the fixed signature there is exactly one function type
`Resultant(Parametric...)`; every class type (functor class, closure type)
is a distinct `classType` id. -/
inductive TypeTag
  | funType
  | classType (id : Nat)
deriving DecidableEq, Repr

/-- The data stored by a concrete wrapper: the `Objective` base
(procedure.hpp:129-184) stores a reference to a callable object; the
`Methodic` base (procedure.hpp:351-432) stores an object reference and a
member-function pointer.  The static template arguments of the base
instantiation are carried as tags, since the RTTI equality compares the
dynamic type of the base subobject. -/
inductive Binding
  | objective (typ : TypeTag) (objAddr : Nat)
  | methodic (typ : TypeTag) (methTyp : Nat) (objAddr : Nat) (method : Option Nat)
deriving DecidableEq, Repr

/-- One concrete wrapper instance: its binding, the address of the wrapper
instance itself (`this`), and whether it was built by the comparable
construction functions (`ComparablyObjective` / `ComparablyMethodic`) or the
simple ones (`SimplyObjective` / `SimplyMethodic`).  The `comparable` flag
records which capability surface the instance offers; it does not affect
invocation, and the RTTI equality casts to the shared `Objective` /
`Methodic` base, so it does not affect comparison either. -/
structure Wrapper where
  binding : Binding
  self : Nat
  comparable : Bool
deriving DecidableEq, Repr

/-- Build-configuration flags; `true` means the corresponding macro is
defined.  `nothrow` is PROCEDURE_MODULE_NOTHROW (disables the null-selector
check), `nortti` is PROCEDURE_MODULE_NORTTI (switches equality to the
address-only mode), `nostdcpp` is PROCEDURE_MODULE_NOSTDCPP (disables a
compile-time static assertion only, no run-time effect). -/
structure Config where
  nothrow : Bool
  nortti : Bool
  nostdcpp : Bool
deriving DecidableEq, Repr

/-- Behaviour of the callable entities of a program, for a fixed call
signature with argument list type `π`, result type `ρ` and error type `ε`.
`callObject typ objAddr x` is the observable outcome of invoking the
callable entity referenced through static type `typ` at address `objAddr`
directly with arguments `x` (procedure.hpp:236 `this->object(arguments...)`);
`callMethod objAddr method x` is the outcome of the member call
`(object.*method)(arguments...)` (procedure.hpp:494). -/
structure CallEnv (π ρ ε : Type) where
  callObject : TypeTag → Nat → π → Except ε ρ
  callMethod : Nat → Option Nat → π → Except ε ρ

/-- The virtual call operator of the abstract `Procedural` interface, as
implemented by the concrete wrappers: `SimplyObjective::operator()`
(procedure.hpp:234-237) and `ComparablyObjective::operator()`
(procedure.hpp:295-298) forward to the referenced callable object;
`SimplyMethodic::operator()` (procedure.hpp:492-495) and
`ComparablyMethodic::operator()` (procedure.hpp:564-567) perform the member
call on the referenced object. -/
def invoke {π ρ ε : Type} (env : CallEnv π ρ ε) (w : Wrapper) (x : π) : Except ε ρ :=
  match w.binding with
  | .objective typ objAddr => env.callObject typ objAddr x
  | .methodic _ _ objAddr method => env.callMethod objAddr method x

/-- Objective::operator== (procedure.hpp:150-153): `&object ==
&relative.object`, comparing the addresses of the two referenced callable
objects.  Only callable between two `Objective` bases of the same
instantiation, which the caller `equalsRTTI` guarantees. -/
def Objective.eq (objAddr relAddr : Nat) : Bool :=
  decide (objAddr = relAddr)

/-- Methodic::operator== (procedure.hpp:384-387): `&object ==
&relative.object && method == relative.method`. -/
def Methodic.eq (objAddr : Nat) (method : Option Nat) (relAddr : Nat) (relMethod : Option Nat) : Bool :=
  decide (objAddr = relAddr) && decide (method = relMethod)

/-- The virtual equality of the comparable wrappers in the identity-checked
(RTTI) build: `ComparablyObjective::operator==` (procedure.hpp:319-324)
performs `dynamic_cast<const BaseObjective*>(&relative)` where
`BaseObjective = Objective<Typical, Resultant, Parametric...>`; the cast
yields null (so the result is `false`) unless the most-derived object of
`relative` has a base of exactly that instantiation, i.e. unless `relative`
is an objective wrapper with the same `Typical`; on success it compares the
referenced object addresses.  `ComparablyMethodic::operator==`
(procedure.hpp:588-593) does the same with `BaseMethodic =
Methodic<Typical, MethodLocational, Resultant, Parametric...>`, so the cast
requires the same `Typical` and the same `MethodLocational`, and on success
it compares object addresses and member pointers. -/
def equalsRTTI (w relative : Wrapper) : Bool :=
  match w.binding, relative.binding with
  | .objective typ objAddr, .objective rtyp relAddr =>
      decide (typ = rtyp) && Objective.eq objAddr relAddr
  | .methodic typ methTyp objAddr method, .methodic rtyp rmethTyp relAddr rmethod =>
      (decide (typ = rtyp) && decide (methTyp = rmethTyp)) && Methodic.eq objAddr method relAddr rmethod
  | _, _ => false

/-- The virtual equality of the comparable wrappers in the address-only
build (PROCEDURE_MODULE_NORTTI defined): both
`ComparablyObjective::operator==` (procedure.hpp:326) and
`ComparablyMethodic::operator==` (procedure.hpp:595) are `&relative ==
this`, comparing the address of the relative wrapper instance with the
address of this wrapper instance; the referenced callables play no part. -/
def equalsNoRTTI (w relative : Wrapper) : Bool :=
  decide (w.self = relative.self)

/-- The equality dispatch under a build configuration: the NORTTI macro
selects between the two preprocessor branches of the virtual
operator== implementations. -/
def equals (cfg : Config) (w relative : Wrapper) : Bool :=
  if cfg.nortti then equalsNoRTTI w relative else equalsRTTI w relative

/-- Methodic::Methodic (procedure.hpp:419-426): stores the object reference
and the member pointer; unless PROCEDURE_MODULE_NOTHROW is defined, a null
member pointer is thrown (`if (!method) throw method;`) before the instance
is produced.  The thrown value is the (null) member pointer itself. -/
def Methodic.construct (cfg : Config) (typ : TypeTag) (methTyp : Nat) (objAddr : Nat)
    (method : Option Nat) : Except (Option Nat) Binding :=
  if !cfg.nothrow && method.isNone then Except.error method
  else Except.ok (Binding.methodic typ methTyp objAddr method)

/-- Procure, function overload (procedure.hpp:631-637): wraps a free
function reference in a `SimplyObjective< Resultant(Parametric...),
Resultant, Parametric... >`, so the static `Typical` is the function type
of the signature. -/
def ProcureFunction (funAddr self : Nat) : Wrapper :=
  ⟨Binding.objective TypeTag.funType funAddr, self, false⟩

/-- Procure, callable object overload (procedure.hpp:659-665): wraps a
callable object reference in a `SimplyObjective< Typical, Resultant,
Parametric... >`, with the signature fixed by the `Guide` marker. -/
def ProcureObject (typ : TypeTag) (objAddr self : Nat) : Wrapper :=
  ⟨Binding.objective typ objAddr, self, false⟩

/-- Procure, member function overload (procedure.hpp:690-711): wraps an
object reference plus member pointer in a `SimplyMethodic`, delegating to
the `Methodic` base constructor, which may throw on a null pointer. -/
def ProcureMethod (cfg : Config) (typ : TypeTag) (methTyp objAddr : Nat)
    (method : Option Nat) (self : Nat) : Except (Option Nat) Wrapper :=
  (Methodic.construct cfg typ methTyp objAddr method).map (fun b => ⟨b, self, false⟩)

/-- ProcureComparably, function overload (procedure.hpp:726-732): as
`ProcureFunction` but producing a `ComparablyObjective`. -/
def ProcureComparablyFunction (funAddr self : Nat) : Wrapper :=
  ⟨Binding.objective TypeTag.funType funAddr, self, true⟩

/-- ProcureComparably, callable object overload (procedure.hpp:754-760): as
`ProcureObject` but producing a `ComparablyObjective`. -/
def ProcureComparablyObject (typ : TypeTag) (objAddr self : Nat) : Wrapper :=
  ⟨Binding.objective typ objAddr, self, true⟩

/-- ProcureComparably, member function overload (procedure.hpp:785-806): as
`ProcureMethod` but producing a `ComparablyMethodic`; the `Methodic` base
constructor may throw on a null pointer. -/
def ProcureComparablyMethod (cfg : Config) (typ : TypeTag) (methTyp objAddr : Nat)
    (method : Option Nat) (self : Nat) : Except (Option Nat) Wrapper :=
  (Methodic.construct cfg typ methTyp objAddr method).map (fun b => ⟨b, self, true⟩)

/-- The concrete wrapper kind in the sense of the specification: a wrapper
over a free function (an objective wrapper whose static type is the
signature's function type), over a callable object or closure (an objective
wrapper whose static type is a class type), or over an object/member pair
(a methodic wrapper). -/
inductive ConcreteKind
  | function
  | object
  | method
deriving DecidableEq, Repr

/-- Classifies a wrapper by concrete kind. -/
def concreteKind (w : Wrapper) : ConcreteKind :=
  match w.binding with
  | .objective TypeTag.funType _ => ConcreteKind.function
  | .objective (TypeTag.classType _) _ => ConcreteKind.object
  | .methodic _ _ _ _ => ConcreteKind.method

/-- The body available for a qualified-id (non-virtual) call to
`ComparablyProcedural::operator==`.  That operator is declared pure virtual
with no definition (procedure.hpp:96 `virtual bool operator==( const
BaseProcedural& ) const = 0;` and no out-of-line definition exists), so no
body is available: a qualified-id call suppresses the virtual call
mechanism and requires exactly this missing definition, making every
program that odr-uses it ill-formed (undefined reference at link time). -/
def comparablyProceduralEqBody : Option (Config → Wrapper → Wrapper → Bool) :=
  none

/-- ComparablyProcedural::operator!= as written (procedure.hpp:109-113):
`return !SameProcedural::operator==( relative );` where `SameProcedural` is
`ComparablyProcedural< Resultant, Parametric... >` itself.  The explicit
qualification suppresses virtual dispatch, so the call resolves to the
(nonexistent) body of the pure virtual `ComparablyProcedural::operator==`
rather than to the concrete wrapper's equality; the result is the negation
of that body's result when a body exists, and no result at all otherwise. -/
def ComparablyProcedural.notEquals (cfg : Config) (w relative : Wrapper) : Option Bool :=
  comparablyProceduralEqBody.map (fun body => !body cfg w relative)

/-!
Model of the demonstration program src/erasure.cpp.  Its global callables
(erasure.cpp:12-17) are a closure `Lambda` printing "Lambda", a free
function `Function` printing "Function", and a constant object `Object` of
class `Class` whose call operator prints "Functor" and whose member
function `member` prints "Member Function".  All macros are left undefined
(erasure.cpp:3-5), so the build is the throwing, RTTI-enabled one.
Addresses and type ids below are arbitrary distinct numerals.
-/

/-- Class type id of the closure type of `Lambda` (erasure.cpp:12). -/
def lambdaTypeId : Nat := 0

/-- Class type id of `Class` (erasure.cpp:14-17). -/
def classTypeId : Nat := 1

/-- Address of the global closure object `Lambda`. -/
def lambdaAddr : Nat := 1

/-- Address of the free function `Function`. -/
def functionAddr : Nat := 2

/-- Address of the global object `Object`. -/
def objectAddr : Nat := 3

/-- Member pointer value of `&Class::member`. -/
def memberSel : Nat := 10

/-- Type id of the member pointer type `void (Class::*)() const`. -/
def memberMethTyp : Nat := 20

/-- Build configuration of erasure.cpp: all three macros commented out
(erasure.cpp:3-5). -/
def erasureConfig : Config :=
  ⟨false, false, false⟩

/-- Behaviour of the callables of erasure.cpp, with no arguments
(`π = Unit`), observable output as the result string (`ρ = String`) and no
error path (`ε = Empty`): `Lambda` prints "Lambda", `Function` prints
"Function", `Object()` prints "Functor" and `Object.member()` prints
"Member Function" (erasure.cpp:12-17). -/
def erasureEnv : CallEnv Unit String Empty where
  callObject := fun typ objAddr _ =>
    if typ = TypeTag.classType lambdaTypeId ∧ objAddr = lambdaAddr then Except.ok "Lambda"
    else if typ = TypeTag.funType ∧ objAddr = functionAddr then Except.ok "Function"
    else if typ = TypeTag.classType classTypeId ∧ objAddr = objectAddr then Except.ok "Functor"
    else Except.ok "unbound"
  callMethod := fun objAddr method _ =>
    if objAddr = objectAddr ∧ method = some memberSel then Except.ok "Member Function"
    else Except.ok "unbound"

/-- LambdaProcedure (erasure.cpp:21): `ProcureComparably( Lambda,
Guide< void > )`, an objective wrapper over the closure. -/
def LambdaProcedure : Wrapper :=
  ProcureComparablyObject (TypeTag.classType lambdaTypeId) lambdaAddr 101

/-- FunctionProcedure (erasure.cpp:22): `ProcureComparably( Function,
Guide< void > )`; the callable-object overload applies with `Typical`
deduced as the function type of the signature. -/
def FunctionProcedure : Wrapper :=
  ProcureComparablyObject TypeTag.funType functionAddr 102

/-- FunctorProcedure (erasure.cpp:23): `ProcureComparably( Object,
Guide< void > )`, an objective wrapper over the global `Object`. -/
def FunctorProcedure : Wrapper :=
  ProcureComparablyObject (TypeTag.classType classTypeId) objectAddr 103

/-- MethodProcedure (erasure.cpp:24): `ProcureComparably( Object,
&Class::member, Guide< void > )`, a methodic wrapper over `Object` and the
(non-null) member pointer, so the throwing constructor succeeds. -/
def MethodProcedure : Wrapper :=
  ⟨Binding.methodic (TypeTag.classType classTypeId) memberMethTyp objectAddr (some memberSel), 104, true⟩

/-- ShuffleCalls (erasure.cpp:57-65): moves the element at index 0 to the
last position, shifting every other element down one index — one cyclic
rotation of the storage.  Each `Conventional` slot holds a pointer to a
comparable wrapper instance and the rotation only reassigns those pointers,
so a slot is modelled by the wrapper instance it references.  For sequences
shorter than two the function returns without changes, which the clauses
below also satisfy. -/
def ShuffleCalls : List Wrapper → List Wrapper
  | [] => []
  | call :: rest => rest ++ [call]

/-- PerformCalls (erasure.cpp:67-72): invokes each slot in index order
through `CallProcedure` (erasure.cpp:19), which calls through the abstract
`Procedural< void >` reference; the list of observable outcomes in index
order. -/
def PerformCalls (calls : List Wrapper) : List (Except Empty String) :=
  calls.map (fun w => invoke erasureEnv w ())

/-- The call array of main (erasure.cpp:76-78), in construction order. -/
def erasureCalls : List Wrapper :=
  [LambdaProcedure, FunctionProcedure, FunctorProcedure, MethodProcedure]

/-- Direct invocation of the callable underlying the wrapper constructed at
position `j` of the array: the closure, the function, the functor object
and the member function, in construction order. -/
def constructionCall : Nat → Except Empty String
  | 0 => erasureEnv.callObject (TypeTag.classType lambdaTypeId) lambdaAddr ()
  | 1 => erasureEnv.callObject TypeTag.funType functionAddr ()
  | 2 => erasureEnv.callObject (TypeTag.classType classTypeId) objectAddr ()
  | _ => erasureEnv.callMethod objectAddr (some memberSel) ()

lemma shuffleCalls_eq_rotate (l : List Wrapper) : ShuffleCalls l = l.rotate 1 := by
  cases l with
  | nil => simp [ShuffleCalls]
  | cons call rest => rw [ShuffleCalls, List.rotate_cons_succ, List.rotate_zero]

lemma shuffleCalls_iterate (k : Nat) (l : List Wrapper) :
    ShuffleCalls^[k] l = l.rotate k := by
  induction k generalizing l with
  | zero => simp
  | succ n ih =>
      rw [Function.iterate_succ_apply, shuffleCalls_eq_rotate, ih, List.rotate_rotate,
        Nat.add_comm]

/-- C7: for every ComparableProcedure instance A, comparing A for equality
with A itself returns true, in both the identity-checked mode and the
address-only mode, for both object-kind and method-kind wrappers. -/
theorem equals_self (cfg : Config) (w : Wrapper) : equals cfg w w = true := by
  rcases w with ⟨b, s, c⟩
  cases hn : cfg.nortti <;> cases b <;>
    simp [equals, hn, equalsNoRTTI, equalsRTTI, Objective.eq, Methodic.eq]

/-- C9: equality of ComparableProcedure instances is symmetric in both
modes: A equals B returns exactly the same boolean as B equals A, including
for pairs of different concrete wrapper kinds. -/
theorem equals_symm (cfg : Config) (w relative : Wrapper) :
    equals cfg w relative = equals cfg relative w := by
  rcases w with ⟨b, s, c⟩
  rcases relative with ⟨rb, rs, rc⟩
  cases hn : cfg.nortti <;> cases b <;> cases rb <;>
    simp [equals, hn, equalsNoRTTI, equalsRTTI, Objective.eq, Methodic.eq,
      ← Bool.decide_and, decide_eq_decide, eq_comm]

/-- C2: in identity-checked (RTTI) mode, two comparable wrappers
constructed from the same object reference (same static type, same
address) — and, for method wrappers, additionally the same member selector
— compare equal, no matter how many intermediate copies of the wrapper
were made (any wrapper instance addresses and capability flags); wrappers
constructed from different object references (different addresses) compare
unequal, even when the two referenced objects are structurally
identical. -/
theorem equals_rtti_identity :
    (∀ (typ : TypeTag) (objAddr s₁ s₂ : Nat) (c₁ c₂ : Bool),
      equalsRTTI ⟨Binding.objective typ objAddr, s₁, c₁⟩
        ⟨Binding.objective typ objAddr, s₂, c₂⟩ = true)
    ∧ (∀ (typ rtyp : TypeTag) (a₁ a₂ s₁ s₂ : Nat) (c₁ c₂ : Bool), a₁ ≠ a₂ →
      equalsRTTI ⟨Binding.objective typ a₁, s₁, c₁⟩
        ⟨Binding.objective rtyp a₂, s₂, c₂⟩ = false)
    ∧ (∀ (typ : TypeTag) (methTyp objAddr sel s₁ s₂ : Nat) (c₁ c₂ : Bool),
      equalsRTTI ⟨Binding.methodic typ methTyp objAddr (some sel), s₁, c₁⟩
        ⟨Binding.methodic typ methTyp objAddr (some sel), s₂, c₂⟩ = true)
    ∧ (∀ (typ rtyp : TypeTag) (methTyp rmethTyp a₁ a₂ : Nat) (m₁ m₂ : Option Nat)
        (s₁ s₂ : Nat) (c₁ c₂ : Bool), a₁ ≠ a₂ →
      equalsRTTI ⟨Binding.methodic typ methTyp a₁ m₁, s₁, c₁⟩
        ⟨Binding.methodic rtyp rmethTyp a₂ m₂, s₂, c₂⟩ = false) := by
  refine ⟨?_, ?_, ?_, ?_⟩ <;> intros <;>
    simp_all [equalsRTTI, Objective.eq, Methodic.eq]

/-- Witness for `equals_rtti_identity`: all four clauses at the functor
object and member of erasure.cpp, with distinct instance addresses playing
the role of intermediate copies. -/
theorem equals_rtti_identity_witness :
    equalsRTTI ⟨Binding.objective (TypeTag.classType 1) 3, 103, true⟩
      ⟨Binding.objective (TypeTag.classType 1) 3, 200, false⟩ = true
    ∧ equalsRTTI ⟨Binding.objective (TypeTag.classType 1) 3, 103, true⟩
      ⟨Binding.objective (TypeTag.classType 1) 4, 201, true⟩ = false
    ∧ equalsRTTI ⟨Binding.methodic (TypeTag.classType 1) 20 3 (some 10), 104, true⟩
      ⟨Binding.methodic (TypeTag.classType 1) 20 3 (some 10), 202, true⟩ = true
    ∧ equalsRTTI ⟨Binding.methodic (TypeTag.classType 1) 20 3 (some 10), 104, true⟩
      ⟨Binding.methodic (TypeTag.classType 1) 20 4 (some 10), 203, true⟩ = false :=
  ⟨equals_rtti_identity.1 _ _ _ _ _ _,
   equals_rtti_identity.2.1 _ _ _ _ _ _ _ _ (by decide),
   equals_rtti_identity.2.2.1 _ _ _ _ _ _ _ _,
   equals_rtti_identity.2.2.2 _ _ _ _ _ _ _ _ _ _ _ _ (by decide)⟩

/-- C3: in address-only (NORTTI) mode, equals compares only the addresses
of the two wrapper instances themselves (first clause), never their
referenced callables (second clause: the result does not depend on the
bindings at all); consequently two distinct wrapper instances compare
unequal even when bound to the very same underlying callable and selector
(third clause).  The fourth clause ties the NORTTI flag to this mode. -/
theorem equals_nortti_instance_address :
    (∀ (b₁ b₂ : Binding) (s₁ s₂ : Nat) (c₁ c₂ : Bool),
      equalsNoRTTI ⟨b₁, s₁, c₁⟩ ⟨b₂, s₂, c₂⟩ = decide (s₁ = s₂))
    ∧ (∀ (b₁ b₂ b₃ b₄ : Binding) (s₁ s₂ : Nat) (c₁ c₂ c₃ c₄ : Bool),
      equalsNoRTTI ⟨b₁, s₁, c₁⟩ ⟨b₂, s₂, c₂⟩ = equalsNoRTTI ⟨b₃, s₁, c₃⟩ ⟨b₄, s₂, c₄⟩)
    ∧ (∀ (b : Binding) (s₁ s₂ : Nat) (c₁ c₂ : Bool), s₁ ≠ s₂ →
      equalsNoRTTI ⟨b, s₁, c₁⟩ ⟨b, s₂, c₂⟩ = false)
    ∧ (∀ (cfg : Config), cfg.nortti = true → ∀ w relative : Wrapper,
      equals cfg w relative = equalsNoRTTI w relative) := by
  refine ⟨fun _ _ _ _ _ _ => rfl, fun _ _ _ _ _ _ _ _ _ _ => rfl, ?_, ?_⟩
  · intro b s₁ s₂ c₁ c₂ h
    simp [equalsNoRTTI, h]
  · intro cfg h w relative
    simp [equals, h]

/-- Witness for `equals_nortti_instance_address`: two distinct instances
over the same functor object of erasure.cpp are unequal in address-only
mode, and the NORTTI configuration selects that mode. -/
theorem equals_nortti_instance_address_witness :
    equalsNoRTTI ⟨Binding.objective (TypeTag.classType 1) 3, 103, true⟩
      ⟨Binding.objective (TypeTag.classType 1) 3, 200, true⟩ = false
    ∧ equals ⟨false, true, false⟩ FunctorProcedure FunctorProcedure
      = equalsNoRTTI FunctorProcedure FunctorProcedure :=
  ⟨equals_nortti_instance_address.2.2.1 _ _ _ _ _ (by decide),
   equals_nortti_instance_address.2.2.2 ⟨false, true, false⟩ rfl _ _⟩

/-- C10: in identity-checked mode, object-wrapper equality additionally
requires the same static callable type: two comparable object wrappers
referencing the very same object address but instantiated with different
static types compare unequal, because the dynamic_cast succeeds only for
the matching `Objective` base instantiation. -/
theorem equals_rtti_static_type_mismatch (typ rtyp : TypeTag) (objAddr s₁ s₂ : Nat)
    (c₁ c₂ : Bool) (h : typ ≠ rtyp) :
    equalsRTTI ⟨Binding.objective typ objAddr, s₁, c₁⟩
      ⟨Binding.objective rtyp objAddr, s₂, c₂⟩ = false := by
  simp [equalsRTTI, Objective.eq, h]

/-- Witness for `equals_rtti_static_type_mismatch`: the same address bound
through two different class types compares unequal. -/
theorem equals_rtti_static_type_mismatch_witness :
    equalsRTTI ⟨Binding.objective (TypeTag.classType 0) 3, 103, true⟩
      ⟨Binding.objective (TypeTag.classType 1) 3, 200, true⟩ = false :=
  equals_rtti_static_type_mismatch _ _ _ _ _ _ _ (by decide)

/-- C6: in identity-checked mode, equals between two wrappers of the same
signature but of different concrete kind returns false for every such
pair; in particular a wrapper constructed from a free function (whose
static type is the signature's function type) and a wrapper constructed
from a callable object (whose static type is a class type) are never
equal, whatever the referenced addresses. -/
theorem equals_rtti_kind_mismatch :
    (∀ w relative : Wrapper, concreteKind w ≠ concreteKind relative →
      equalsRTTI w relative = false)
    ∧ (∀ (funAddr s₁ : Nat) (c₁ : Bool) (id objAddr s₂ : Nat) (c₂ : Bool),
      equalsRTTI ⟨Binding.objective TypeTag.funType funAddr, s₁, c₁⟩
        ⟨Binding.objective (TypeTag.classType id) objAddr, s₂, c₂⟩ = false
      ∧ equalsRTTI ⟨Binding.objective (TypeTag.classType id) objAddr, s₂, c₂⟩
        ⟨Binding.objective TypeTag.funType funAddr, s₁, c₁⟩ = false) := by
  constructor
  · intro w relative h
    rcases w with ⟨b, s, c⟩
    rcases relative with ⟨rb, rs, rc⟩
    cases b with
    | objective typ a =>
        cases rb with
        | objective rtyp ra =>
            cases typ <;> cases rtyp <;>
              simp_all [equalsRTTI, concreteKind, Objective.eq]
        | methodic rtyp rmt ra rm => rfl
    | methodic typ mt a m =>
        cases rb with
        | objective rtyp ra => rfl
        | methodic rtyp rmt ra rm => simp_all [concreteKind]
  · intro funAddr s₁ c₁ id objAddr s₂ c₂
    constructor <;> simp [equalsRTTI, Objective.eq]

/-- Witness for `equals_rtti_kind_mismatch`: the function wrapper and the
functor wrapper of erasure.cpp are unequal, as are the functor wrapper and
the method wrapper over the very same object. -/
theorem equals_rtti_kind_mismatch_witness :
    equalsRTTI FunctionProcedure FunctorProcedure = false
    ∧ equalsRTTI FunctorProcedure MethodProcedure = false :=
  ⟨equals_rtti_kind_mismatch.1 FunctionProcedure FunctorProcedure (by decide),
   equals_rtti_kind_mismatch.1 FunctorProcedure MethodProcedure (by decide)⟩

/-- C5: with error signaling enabled (PROCEDURE_MODULE_NOTHROW not
defined), constructing a method wrapper with the null member pointer fails
with the invalid-selector error — the thrown null pointer — before any
wrapper is produced, and an error is raised for the null selector and only
for the null selector: with any non-null selector the construction
succeeds without signaling. -/
theorem methodic_construct_null_selector (cfg : Config) (h : cfg.nothrow = false) :
    (∀ (typ : TypeTag) (methTyp objAddr : Nat),
      Methodic.construct cfg typ methTyp objAddr none = Except.error none)
    ∧ (∀ (typ : TypeTag) (methTyp objAddr sel : Nat),
      Methodic.construct cfg typ methTyp objAddr (some sel)
        = Except.ok (Binding.methodic typ methTyp objAddr (some sel)))
    ∧ (∀ (typ : TypeTag) (methTyp objAddr : Nat) (method : Option Nat),
      (∃ e, Methodic.construct cfg typ methTyp objAddr method = Except.error e)
        ↔ method = none)
    ∧ (∀ (typ : TypeTag) (methTyp objAddr self : Nat),
      ProcureComparablyMethod cfg typ methTyp objAddr none self = Except.error none
      ∧ ProcureMethod cfg typ methTyp objAddr none self = Except.error none) := by
  refine ⟨?_, ?_, ?_, ?_⟩
  · intro typ methTyp objAddr
    simp [Methodic.construct, h]
  · intro typ methTyp objAddr sel
    simp [Methodic.construct, h]
  · intro typ methTyp objAddr method
    cases method <;> simp [Methodic.construct, h]
  · intro typ methTyp objAddr self
    constructor <;>
      simp [ProcureComparablyMethod, ProcureMethod, Methodic.construct, h, Except.map]

/-- Witness for `methodic_construct_null_selector` in the erasure.cpp
build configuration at the functor object: the null selector fails, the
real member selector succeeds. -/
theorem methodic_construct_null_selector_witness :
    Methodic.construct erasureConfig (TypeTag.classType 1) 20 3 none = Except.error none
    ∧ ProcureComparablyMethod erasureConfig (TypeTag.classType 1) 20 3 none 104
      = Except.error none
    ∧ Methodic.construct erasureConfig (TypeTag.classType 1) 20 3 (some 10)
      = Except.ok (Binding.methodic (TypeTag.classType 1) 20 3 (some 10)) :=
  ⟨(methodic_construct_null_selector erasureConfig rfl).1 _ _ _,
   ((methodic_construct_null_selector erasureConfig rfl).2.2.2 _ _ _ _).1,
   (methodic_construct_null_selector erasureConfig rfl).2.1 _ _ _ _⟩

/-- C1: for every callable kind (free function, callable object or
closure, object plus member selector) and every argument list of the fixed
signature, invoking the constructed wrapper through the abstract call
operator produces exactly the outcome of invoking the underlying callable
directly with the same arguments: the result is returned unmodified, and
an error raised by the underlying callable propagates through the wrapper
unchanged while the wrapper itself never fails on invocation (last clause:
the invocation errs exactly when the direct call errs). -/
theorem invoke_forwards {π ρ ε : Type} (env : CallEnv π ρ ε) :
    (∀ (funAddr self : Nat) (x : π),
      invoke env (ProcureFunction funAddr self) x = env.callObject TypeTag.funType funAddr x
      ∧ invoke env (ProcureComparablyFunction funAddr self) x
        = env.callObject TypeTag.funType funAddr x)
    ∧ (∀ (typ : TypeTag) (objAddr self : Nat) (x : π),
      invoke env (ProcureObject typ objAddr self) x = env.callObject typ objAddr x
      ∧ invoke env (ProcureComparablyObject typ objAddr self) x = env.callObject typ objAddr x)
    ∧ (∀ (cfg : Config) (typ : TypeTag) (methTyp objAddr self : Nat) (method : Option Nat)
        (w : Wrapper) (x : π),
      (ProcureMethod cfg typ methTyp objAddr method self = Except.ok w
        ∨ ProcureComparablyMethod cfg typ methTyp objAddr method self = Except.ok w) →
      invoke env w x = env.callMethod objAddr method x)
    ∧ (∀ (typ : TypeTag) (objAddr self : Nat) (x : π) (e : ε),
      invoke env (ProcureComparablyObject typ objAddr self) x = Except.error e
        ↔ env.callObject typ objAddr x = Except.error e) := by
  refine ⟨fun _ _ _ => ⟨rfl, rfl⟩, fun _ _ _ _ => ⟨rfl, rfl⟩, ?_, fun _ _ _ _ _ => Iff.rfl⟩
  intro cfg typ methTyp objAddr self method w x h
  have hw : w = ⟨Binding.methodic typ methTyp objAddr method, self, true⟩
      ∨ w = ⟨Binding.methodic typ methTyp objAddr method, self, false⟩ := by
    rcases h with h | h <;>
      [right; left] <;>
      · cases hc : (!cfg.nothrow && method.isNone) <;>
          simp [ProcureMethod, ProcureComparablyMethod, Methodic.construct, hc,
            Except.map] at h
        exact h.symm
  rcases hw with hw | hw <;> rw [hw] <;> rfl

/-- Witness for `invoke_forwards` at the erasure.cpp environment: the
method wrapper obtained from the successful construction over the functor
object invokes the member function directly, and the functor wrapper
invokes the functor directly. -/
theorem invoke_forwards_witness :
    invoke erasureEnv MethodProcedure () = erasureEnv.callMethod objectAddr (some memberSel) ()
    ∧ invoke erasureEnv FunctorProcedure ()
      = erasureEnv.callObject (TypeTag.classType classTypeId) objectAddr () :=
  ⟨(invoke_forwards erasureEnv).2.2.1 erasureConfig (TypeTag.classType classTypeId)
      memberMethTyp objectAddr 104 (some memberSel) MethodProcedure () (Or.inr rfl),
   ((invoke_forwards erasureEnv).2.1 (TypeTag.classType classTypeId) objectAddr 103 ()).2⟩

/-- C4 (code defect evaluation): the derived not-equals of
ComparablyProcedural (procedure.hpp:109-113) never produces the negation
of the dispatched equals.  The explicitly qualified call
`SameProcedural::operator==( relative )` suppresses the virtual call
mechanism and so targets the pure virtual
`ComparablyProcedural::operator==` itself, which has no definition, so the
operation has no result at all — every program that odr-uses the operator
is ill-formed (undefined reference at link time) — whereas the negation of
the dispatched equals is a defined boolean for every pair. -/
theorem notEquals_unresolvable (cfg : Config) (w relative : Wrapper) :
    ComparablyProcedural.notEquals cfg w relative = none
    ∧ ComparablyProcedural.notEquals cfg w relative ≠ some (!equals cfg w relative) := by
  simp [ComparablyProcedural.notEquals, comparablyProceduralEqBody]

/-- C8: for the fixed-order sequence of the four wrappers of erasure.cpp
(closure, free function, functor object, member method) stored behind the
abstract capability, invoking each position in order after any number k of
cyclic rotations yields exactly the outcome of directly invoking the
callable constructed at position (i + k) mod 4 — so the rotation only
re-points which wrapper each position holds, never changing which
underlying callable any wrapper invokes, and the performed output sequence
is the construction-order output sequence cyclically rotated — and after a
number of rotations equal to the sequence length the sequence is the
original again, each position holding a wrapper equal (by the comparable
equality) to the originally constructed one. -/
theorem erasure_rotation :
    (∀ k i, i < 4 →
      ((ShuffleCalls^[k] erasureCalls)[i]?).map (fun w => invoke erasureEnv w ())
        = some (constructionCall ((i + k) % 4)))
    ∧ (∀ k, PerformCalls (ShuffleCalls^[k] erasureCalls)
        = (PerformCalls erasureCalls).rotate k)
    ∧ ShuffleCalls^[4] erasureCalls = erasureCalls
    ∧ (∀ i, i < 4 →
      ((ShuffleCalls^[4] erasureCalls)[i]?).bind
        (fun w => (erasureCalls[i]?).map (fun w0 => equalsRTTI w w0)) = some true) := by
  have hlen : erasureCalls.length = 4 := rfl
  have h4 : ShuffleCalls^[4] erasureCalls = erasureCalls := by
    rw [shuffleCalls_iterate, ← hlen]
    exact List.rotate_length erasureCalls
  refine ⟨?_, ?_, h4, ?_⟩
  · intro k i hi
    rw [shuffleCalls_iterate, List.getElem?_rotate (by rw [hlen]; exact hi), hlen]
    have hr : (i + k) % 4 < 4 := Nat.mod_lt _ (by norm_num)
    set r := (i + k) % 4 with hrdef
    interval_cases r <;> rfl
  · intro k
    rw [shuffleCalls_iterate, PerformCalls, PerformCalls]
    exact List.map_rotate _ _ _
  · intro i hi
    rw [h4]
    interval_cases i <;> rfl

/-- Witness for `erasure_rotation`: after six rotations position 1 invokes
the callable constructed at position 3 (the member method), and after four
rotations position 2 again holds a wrapper equal to the functor wrapper. -/
theorem erasure_rotation_witness :
    ((ShuffleCalls^[6] erasureCalls)[1]?).map (fun w => invoke erasureEnv w ())
      = some (constructionCall ((1 + 6) % 4))
    ∧ ((ShuffleCalls^[4] erasureCalls)[2]?).bind
        (fun w => (erasureCalls[2]?).map (fun w0 => equalsRTTI w w0)) = some true :=
  ⟨erasure_rotation.1 6 1 (by decide), erasure_rotation.2.2.2 2 (by decide)⟩

end procedure
